import Mathlib

/-!
Verification of the todo-backend's authentication and task subsystem, as a
shallow embedding of the Python sources under `backend/`.

Modelling conventions:
* Machine integers of the database (`user_id`, task `id`) are `Int`;
  timestamps are epoch seconds, `Int`.
* Python exceptions raised by a route handler are the `Except.error` case of
  an `Except HTTPException` result; fastapi `HTTPException(status_code, detail)`
  is the structure `HTTPException`.
* The `python-jose` JWT library is modelled symbolically: a signed token is a
  record of its payload, signing secret and algorithm, and `jwt_decode` checks
  the secret, the algorithm list and the `exp` claim exactly as
  `jose.jwt.decode` does (a token is expired only when `exp < now`; the
  comparison in `jose.jwt._validate_exp` is strict, so a token is still
  accepted at the instant `now = exp`).
* `passlib`'s `CryptContext(schemes=["pbkdf2_sha256"])` is modelled as an
  idealised (collision-free) salted hash: a well-formed digest records its
  salt and the password it was derived from; `CryptContext.verify` raises
  (`UnknownHashError`, a `ValueError`) on a digest it cannot identify, which
  the model renders as `Except.error`.
* Python's `str` on an `int` and `int` on a `str` are modelled by `pyStr` and
  `pyInt?` below, decimal notation with an optional leading minus sign
  (`pyInt?` is the restriction of Python `int()` to the strings relevant
  here: it accepts exactly an optional minus followed by decimal digits).
-/

namespace TodoBackend

/-! ## Decimal strings: model of Python str(int) and int(str) -/

/-- Character of a single decimal digit, the model of how Python renders one
digit of a number. -/
def digitChar (d : Nat) : Char := Char.ofNat (48 + d)

/-- Decimal digits of a natural number, least significant first. -/
def natDigitsRev : Nat → List Char
  | 0 => []
  | n + 1 => digitChar ((n + 1) % 10) :: natDigitsRev ((n + 1) / 10)
decreasing_by simp_wf; omega

/-- Decimal rendering of a natural number, the model of Python str() on a
nonnegative int. -/
def pyStrNat (n : Nat) : String :=
  if n = 0 then "0" else String.mk (natDigitsRev n).reverse

/-- Model of Python str() on an int. -/
def pyStr (i : Int) : String :=
  if i < 0 then "-" ++ pyStrNat i.natAbs else pyStrNat i.natAbs

/-- Numeric value of a decimal digit character, none for a non-digit. -/
def digitVal? (c : Char) : Option Nat :=
  if 48 ≤ c.toNat && c.toNat ≤ 57 then some (c.toNat - 48) else none

/-- Left-to-right accumulation of decimal digits; fails on the first
non-digit character. -/
def parseNatAux : List Char → Nat → Option Nat
  | [], acc => some acc
  | c :: cs, acc =>
    match digitVal? c with
    | none => none
    | some d => parseNatAux cs (10 * acc + d)

/-- Model of Python int() on the character list of a string: an optional
leading minus sign followed by at least one decimal digit. -/
def pyIntChars? : List Char → Option Int
  | [] => none
  | c :: cs =>
    if c = '-' then
      if cs = [] then none
      else (parseNatAux cs 0).map (fun n => -(n : Int))
    else (parseNatAux (c :: cs) 0).map (fun n => (n : Int))

/-- Model of Python int() on a string: returns none where Python raises
ValueError. -/
def pyInt? (s : String) : Option Int := pyIntChars? s.data

/-! ## HTTP errors (fastapi HTTPException) -/

/-- Embedding of fastapi HTTPException(status_code, detail). -/
structure HTTPException where
  status_code : Nat
  detail : String
deriving DecidableEq, Repr

/-! ## Configuration (backend/config.py) -/

/-- A process environment: the mapping consulted by os.getenv. -/
structure Env where
  vars : List (String × String)

/-- Embedding of os.getenv(key) against an environment. -/
def os_getenv (env : Env) (key : String) : Option String :=
  (env.vars.find? (fun kv => kv.1 == key)).map (fun kv => kv.2)

/-- Embedding of os.getenv(key, default). -/
def os_getenvD (env : Env) (key default : String) : String :=
  (os_getenv env key).getD default

/-- The hard-coded fallback secret in backend/config.py line 21. -/
def defaultSecretKey : String := "KPUqFcCE/cmK7jg73LieWXczeHwnHlb4Hde1EcVrbCo="

/-- Embedding of the Settings class of backend/config.py (the fields the
auth subsystem reads). -/
structure Settings where
  DATABASE_URL : String
  SECRET_KEY : String
  ALGORITHM : String
  ACCESS_TOKEN_EXPIRE_MINUTES : Int
deriving DecidableEq, Repr

/-- Construction of Settings at import time, line by line from
backend/config.py. The only way the class body can raise (failing startup)
is the int() conversion of ACCESS_TOKEN_EXPIRE_MINUTES; the SECRET_KEY line
is the nested getenv fallback chain SECRET_KEY, AUTH_SECRET, built-in
default, and never fails. -/
def settingsOfEnv (env : Env) : Except String Settings :=
  match pyInt? (os_getenvD env "ACCESS_TOKEN_EXPIRE_MINUTES" "30") with
  | none => Except.error "invalid literal for int() with base 10"
  | some minutes =>
      Except.ok
        { DATABASE_URL := os_getenvD env "DATABASE_URL" "sqlite+aiosqlite:///./todo_app.db"
          SECRET_KEY :=
            (os_getenv env "SECRET_KEY").getD ((os_getenv env "AUTH_SECRET").getD defaultSecretKey)
          ALGORITHM := os_getenvD env "ALGORITHM" "HS256"
          ACCESS_TOKEN_EXPIRE_MINUTES := minutes }

/-! ## JWT (python-jose, as used by backend/utils.py) -/

/-- Claims of a token payload as used by this app: the sub claim (a string
when present) and the exp claim in epoch seconds. create_access_token always
sets exp, so the model keeps it mandatory. -/
structure JWTPayload where
  sub : Option String
  exp : Int
deriving DecidableEq, Repr

/-- Symbolic model of an encoded JWT string: either not parseable as a JWT
at all, or a payload signed with some secret under some algorithm. -/
inductive JWTToken where
  | malformed (raw : String)
  | signed (payload : JWTPayload) (secret : String) (alg : String)
deriving DecidableEq, Repr

/-- Model of jose.jwt.encode(claims, key, algorithm). -/
def jwt_encode (payload : JWTPayload) (key : String) (algorithm : String) : JWTToken :=
  JWTToken.signed payload key algorithm

/-- Model of jose.jwt.decode(token, key, algorithms) evaluated at current
time now (epoch seconds): rejects a malformed token, an algorithm outside
the allowed list, a wrong signature, and an expired token. jose treats a
token as expired only when exp < now (strict, zero leeway), so a token is
still accepted when now = exp. Errors are JWTError with the given message. -/
def jwt_decode (token : JWTToken) (key : String) (algorithms : List String)
    (now : Int) : Except String JWTPayload :=
  match token with
  | JWTToken.malformed _ => Except.error "Not enough segments"
  | JWTToken.signed payload secret alg =>
    if ¬ algorithms.contains alg then
      Except.error "The specified alg value is not allowed"
    else if secret ≠ key then
      Except.error "Signature verification failed"
    else if payload.exp < now then
      Except.error "Signature has expired"
    else
      Except.ok payload

/-! ## Password hashing (passlib CryptContext, as used by backend/utils.py) -/

/-- Idealised model of a password digest string. A digest produced by the
configured pbkdf2_sha256 scheme records its salt and source password
(idealised collision-free hashing); any other string is a digest the
CryptContext cannot identify. -/
inductive PasswordDigest where
  | pbkdf2_sha256 (salt : String) (password : String)
  | malformed (raw : String)
deriving DecidableEq, Repr

/-- Model of pwd_context.hash(password): a fresh salt is drawn per call, so
the salt is an explicit parameter here. -/
def pwd_context_hash (salt password : String) : PasswordDigest :=
  PasswordDigest.pbkdf2_sha256 salt password

/-- Model of pwd_context.verify(plain, digest): matches a well-formed
pbkdf2_sha256 digest against the plaintext; raises UnknownHashError (a
ValueError) on a digest it cannot identify — the error case here. -/
def pwd_context_verify (plain : String) (digest : PasswordDigest) : Except String Bool :=
  match digest with
  | PasswordDigest.malformed _ => Except.error "hash could not be identified"
  | PasswordDigest.pbkdf2_sha256 _ password => Except.ok (plain == password)

/-! ## backend/utils.py -/

/-- Embedding of utils.verify_password: delegates to pwd_context.verify with
no exception handling, so a passlib error propagates to the caller. -/
def verify_password (plain_password : String) (hashed_password : PasswordDigest) :
    Except String Bool :=
  pwd_context_verify plain_password hashed_password

/-- Embedding of utils.get_password_hash. -/
def get_password_hash (salt password : String) : PasswordDigest :=
  pwd_context_hash salt password

/-- Embedding of utils.create_access_token(data, expires_delta): the data
dict as used by the app carries only the sub claim; expires_delta is in
seconds (timedelta resolution relevant here). The source guards the delta
branch with Python truthiness — `if expires_delta:` — and timedelta(0) is
falsy, so a present but zero delta also falls through to the configured
default of ACCESS_TOKEN_EXPIRE_MINUTES minutes. -/
def create_access_token (s : Settings) (now : Int) (sub : Option String)
    (expires_delta : Option Int) : JWTToken :=
  let expire : Int :=
    match expires_delta with
    | some delta =>
        if delta = 0 then now + s.ACCESS_TOKEN_EXPIRE_MINUTES * 60 else now + delta
    | none => now + s.ACCESS_TOKEN_EXPIRE_MINUTES * 60
  jwt_encode { sub := sub, exp := expire } s.SECRET_KEY s.ALGORITHM

/-- Embedding of utils.verify_token: decodes with the configured secret and
algorithm list [settings.ALGORITHM]; returns none on any JWTError, on a
missing sub claim, and on an int() failure (ValueError/TypeError); returns
the parsed integer user id on success. Totality of this function is the
model of "returns None rather than raising". -/
def verify_token (s : Settings) (now : Int) (token : JWTToken) : Option Int :=
  match jwt_decode token s.SECRET_KEY [s.ALGORITHM] now with
  | Except.error _ => none
  | Except.ok payload =>
    match payload.sub with
    | none => none
    | some user_id_str => pyInt? user_id_str

/-! ## Models (backend/models/user.py, backend/models/task.py) -/

/-- A persisted User row (backend/models/user.py, class User): the id is the
database-assigned primary key, so rows always carry one. -/
structure UserRow where
  id : Int
  email : String
  created_at : Int
  hashed_password : PasswordDigest
  is_active : Bool
deriving DecidableEq, Repr

/-- Embedding of UserRead (backend/models/user.py): user data without the
password. -/
structure UserRead where
  id : Int
  email : String
  created_at : Int
  is_active : Bool
deriving DecidableEq, Repr

/-- A persisted Task row (backend/models/task.py, class Task). -/
structure TaskRow where
  id : Int
  title : String
  description : Option String
  completed : Bool
  user_id : Int
  created_at : Int
  updated_at : Int
deriving DecidableEq, Repr

/-! ## Schemas (backend/schemas/task.py) -/

/-- Embedding of schemas.task.TaskCreate, the request body accepted by the
create-task endpoint. It has exactly the fields title, description,
completed — no user_id field exists in this schema. -/
structure TaskCreate where
  title : String
  description : Option String
  completed : Bool
deriving DecidableEq, Repr

/-- Embedding of schemas.task.TaskUpdate under model_dump(exclude_unset):
none means the field was absent from the request body. A description that
was explicitly sent as null is some none. -/
structure TaskUpdate where
  title : Option String
  description : Option (Option String)
  completed : Option Bool
deriving DecidableEq, Repr

/-- Embedding of schemas.task.TaskRead. -/
structure TaskRead where
  title : String
  description : Option String
  completed : Bool
  user_id : Int
  id : Int
  created_at : Int
  updated_at : Int
deriving DecidableEq, Repr

/-- Embedding of schemas.task.TaskListResponse. -/
structure TaskListResponse where
  tasks : List TaskRead
deriving DecidableEq, Repr

/-- The task_dict conversion repeated in backend/routes/tasks.py. -/
def task_read_of (t : TaskRow) : TaskRead :=
  { title := t.title, description := t.description, completed := t.completed
    user_id := t.user_id, id := t.id, created_at := t.created_at
    updated_at := t.updated_at }

/-- Embedding of models.user.Token, the login response. -/
structure TokenResponse where
  access_token : JWTToken
  token_type : String
deriving DecidableEq, Repr

/-! ## Dependencies (backend/dependencies.py) -/

/-- Embedding of dependencies.get_user_id_from_token: verify the bearer
token, 401 when verification yields None. -/
def get_user_id_from_token (s : Settings) (now : Int) (token : JWTToken) :
    Except HTTPException Int :=
  match verify_token s now token with
  | none => Except.error { status_code := 401, detail := "Invalid or expired token" }
  | some user_id => Except.ok user_id

/-- Embedding of dependencies.validate_user_id_match applied to an already
resolved token user id: 403 when the path user id differs from the token
user id, otherwise the path user id unchanged. -/
def validate_user_id_match (user_id token_user_id : Int) : Except HTTPException Int :=
  if user_id ≠ token_user_id then
    Except.error { status_code := 403, detail := "User ID does not match authenticated user" }
  else
    Except.ok user_id

/-- The full dependency chain of the task routes: resolve the token user id,
then enforce it matches the path user id. -/
def resolve_and_validate (s : Settings) (now : Int) (path_user_id : Int)
    (token : JWTToken) : Except HTTPException Int :=
  match get_user_id_from_token s now token with
  | Except.error e => Except.error e
  | Except.ok token_user_id => validate_user_id_match path_user_id token_user_id

/-! ## Task routes (backend/routes/tasks.py) -/

/-- Embedding of routes.tasks.list_tasks: after identity enforcement, select
the rows whose user_id equals the path user id. -/
def list_tasks (s : Settings) (now : Int) (db : List TaskRow) (path_user_id : Int)
    (token : JWTToken) : Except HTTPException TaskListResponse :=
  match resolve_and_validate s now path_user_id token with
  | Except.error e => Except.error e
  | Except.ok user_id =>
      Except.ok { tasks := (db.filter (fun t => t.user_id == user_id)).map task_read_of }

/-- Embedding of routes.tasks.create_task: after identity enforcement, the
row is built from the body's fields with user_id set to the validated path
user id (Task(**task_create.model_dump(), user_id=user_id)); next_id is the
primary key the database assigns on insert, now the clock used by the
created_at/updated_at default factories. Returns the response and the new
table contents. -/
def create_task (s : Settings) (now : Int) (db : List TaskRow) (next_id : Int)
    (task_create : TaskCreate) (path_user_id : Int) (token : JWTToken) :
    Except HTTPException (TaskRead × List TaskRow) :=
  match resolve_and_validate s now path_user_id token with
  | Except.error e => Except.error e
  | Except.ok user_id =>
      let row : TaskRow :=
        { id := next_id, title := task_create.title
          description := task_create.description, completed := task_create.completed
          user_id := user_id, created_at := now, updated_at := now }
      Except.ok (task_read_of row, db ++ [row])

/-- The setattr loop over task_update.model_dump(exclude_unset=True) in the
PUT and PATCH handlers: each provided field overwrites the row's field; no
other field of the row is touched — in particular neither created_at nor
updated_at is assigned anywhere in the handler. -/
def apply_task_update (u : TaskUpdate) (t : TaskRow) : TaskRow :=
  { t with
    title := u.title.getD t.title
    description := match u.description with
      | some d => d
      | none => t.description
    completed := u.completed.getD t.completed }

/-- Embedding of routes.tasks.partial_update_task (the PATCH handler; the
PUT handler update_task has the identical body): after identity enforcement,
find the row with the given id owned by the path user (404 when absent),
apply the provided fields, persist, and return the row. -/
def patch_task (s : Settings) (now : Int) (db : List TaskRow) (id : Int)
    (task_update : TaskUpdate) (path_user_id : Int) (token : JWTToken) :
    Except HTTPException (TaskRead × List TaskRow) :=
  match resolve_and_validate s now path_user_id token with
  | Except.error e => Except.error e
  | Except.ok user_id =>
      match db.find? (fun t => t.id == id && t.user_id == user_id) with
      | none => Except.error { status_code := 404, detail := "Task not found" }
      | some task =>
          let task2 := apply_task_update task_update task
          Except.ok (task_read_of task2,
            db.map (fun t => if t.id == id && t.user_id == user_id then task2 else t))

/-! ## Auth routes (backend/routes/auth.py) -/

/-- Embedding of routes.auth.register_user. The hash_password argument is
the call to get_password_hash, which the handler wraps in try/except: an
error there becomes 400 Invalid password format. A duplicate email found by
the pre-check becomes 409. On success exactly one row with the
database-assigned next_id is appended. Returns the response and the new
table contents. -/
def register_user (hash_password : String → Except String PasswordDigest)
    (db : List UserRow) (next_id now : Int) (email password : String) :
    Except HTTPException UserRead × List UserRow :=
  match db.find? (fun u => u.email == email) with
  | some _ =>
      (Except.error { status_code := 409, detail := "User with this email already exists" }, db)
  | none =>
      match hash_password password with
      | Except.error _ =>
          (Except.error { status_code := 400, detail := "Invalid password format" }, db)
      | Except.ok hashed =>
          let row : UserRow :=
            { id := next_id, email := email, created_at := now
              hashed_password := hashed, is_active := true }
          (Except.ok { id := row.id, email := row.email, created_at := row.created_at
                       is_active := row.is_active },
           db ++ [row])

/-- Embedding of routes.auth.login_user: locate the user by email (401
"Incorrect email or password" when absent), verify the password (a passlib
exception becomes 401 "Authentication error"; a false result becomes the
same 401 "Incorrect email or password" as the absent-user case), reject an
inactive user with 401 "Inactive user", and otherwise issue a token whose
sub claim is str(user.id) with the default expiry. -/
def login_user (s : Settings) (now : Int) (db : List UserRow)
    (username password : String) : Except HTTPException TokenResponse :=
  match db.find? (fun u => u.email == username) with
  | none =>
      Except.error { status_code := 401, detail := "Incorrect email or password" }
  | some user =>
      match verify_password password user.hashed_password with
      | Except.error _ =>
          Except.error { status_code := 401, detail := "Authentication error" }
      | Except.ok password_valid =>
          if ¬ password_valid then
            Except.error { status_code := 401, detail := "Incorrect email or password" }
          else if ¬ user.is_active then
            Except.error { status_code := 401, detail := "Inactive user" }
          else
            Except.ok { access_token := create_access_token s now (some (pyStr user.id)) none
                        token_type := "bearer" }

/-! ## Auxiliary definitions for the statements below -/

/-- A concrete configuration used by the concrete instances below. -/
def sampleSettings : Settings :=
  { DATABASE_URL := "sqlite+aiosqlite:///./todo_app.db", SECRET_KEY := "k"
    ALGORITHM := "HS256", ACCESS_TOKEN_EXPIRE_MINUTES := 30 }

/-- The acceptance condition verify_token actually implements, written out
as a predicate: the signing secret matches the server secret, the algorithm
matches the configured one, the current time is at most the expiry (jose's
expiry comparison is strict), and the sub claim is present and parses as an
integer. The first three conjuncts are the spec's validity invariant; the
last two are what the code additionally requires. -/
def token_accepted_spec (s : Settings) (now : Int) (token : JWTToken) : Bool :=
  match token with
  | JWTToken.malformed _ => false
  | JWTToken.signed p sec alg =>
    sec == s.SECRET_KEY && alg == s.ALGORITHM && decide (now ≤ p.exp) &&
      (match p.sub with
       | none => false
       | some str => (pyInt? str).isSome)

/-! ## Properties of the decimal model -/

theorem digitVal?_digitChar (d : Nat) (hd : d < 10) :
    digitVal? (digitChar d) = some d := by
  interval_cases d <;> rfl

theorem digitChar_ne_minus (d : Nat) (hd : d < 10) : digitChar d ≠ '-' := by
  interval_cases d <;> decide

theorem parseNatAux_append (l1 l2 : List Char) (acc : Nat) :
    parseNatAux (l1 ++ l2) acc =
      match parseNatAux l1 acc with
      | none => none
      | some a => parseNatAux l2 a := by
  induction l1 generalizing acc with
  | nil => rfl
  | cons c cs ih =>
    simp only [List.cons_append, parseNatAux]
    cases digitVal? c with
    | none => rfl
    | some d => exact ih _

theorem natDigitsRev_mem (n : Nat) :
    ∀ c ∈ natDigitsRev n, ∃ d, d < 10 ∧ c = digitChar d := by
  induction n using Nat.strong_induction_on with
  | _ n ih =>
    match n with
    | 0 => intro c hc; simp [natDigitsRev] at hc
    | m + 1 =>
      rw [natDigitsRev]
      intro c hc
      rcases List.mem_cons.mp hc with h | h
      · exact ⟨(m + 1) % 10, Nat.mod_lt _ (by norm_num), h⟩
      · exact ih ((m + 1) / 10) (Nat.div_lt_self (Nat.succ_pos m) (by norm_num)) c h

theorem natDigitsRev_ne_nil (n : Nat) (h : 0 < n) : natDigitsRev n ≠ [] := by
  match n, h with
  | m + 1, _ => rw [natDigitsRev]; simp

theorem parseNatAux_natDigitsRev (n : Nat) : ∀ acc : Nat,
    parseNatAux (natDigitsRev n).reverse acc =
      some (acc * 10 ^ (natDigitsRev n).length + n) := by
  induction n using Nat.strong_induction_on with
  | _ n ih =>
    intro acc
    match n with
    | 0 => simp [natDigitsRev, parseNatAux]
    | m + 1 =>
      have hq : (m + 1) / 10 < m + 1 := Nat.div_lt_self (Nat.succ_pos m) (by norm_num)
      have hr : (m + 1) % 10 < 10 := Nat.mod_lt _ (by norm_num)
      rw [natDigitsRev, List.reverse_cons, parseNatAux_append, ih _ hq acc]
      simp only [parseNatAux, digitVal?_digitChar _ hr, List.length_cons]
      congr 1
      have key : 10 * ((m + 1) / 10) + (m + 1) % 10 = m + 1 := Nat.div_add_mod (m + 1) 10
      have expand : 10 * (acc * 10 ^ (natDigitsRev ((m + 1) / 10)).length + (m + 1) / 10)
            + (m + 1) % 10
          = acc * 10 ^ (natDigitsRev ((m + 1) / 10)).length * 10
            + (10 * ((m + 1) / 10) + (m + 1) % 10) := by ring
      rw [expand, key, pow_succ]
      ring

theorem parseNat_digits (n : Nat) :
    parseNatAux (natDigitsRev n).reverse 0 = some n := by
  have h := parseNatAux_natDigitsRev n 0
  simpa using h

theorem pyIntChars?_digits (n : Nat) (h : 0 < n) :
    pyIntChars? (natDigitsRev n).reverse = some (n : Int) := by
  cases hl : (natDigitsRev n).reverse with
  | nil =>
    exact absurd (List.reverse_eq_nil_iff.mp hl) (natDigitsRev_ne_nil n h)
  | cons c cs =>
    have hcmem : c ∈ natDigitsRev n := by
      have : c ∈ (natDigitsRev n).reverse := by rw [hl]; exact List.mem_cons_self c cs
      exact List.mem_reverse.mp this
    obtain ⟨d, hd, rfl⟩ := natDigitsRev_mem n _ hcmem
    rw [pyIntChars?, if_neg (digitChar_ne_minus d hd), ← hl, parseNat_digits]
    rfl

theorem pyInt?_pyStrNat (n : Nat) : pyInt? (pyStrNat n) = some (n : Int) := by
  by_cases h0 : n = 0
  · subst h0; rfl
  · rw [pyStrNat, if_neg h0]
    exact pyIntChars?_digits n (Nat.pos_of_ne_zero h0)

/-- Round trip: Python int(str(i)) returns i for every int i, as exercised by
the token flow where the subject claim carries str(user.id). -/
theorem pyInt?_pyStr (i : Int) : pyInt? (pyStr i) = some i := by
  by_cases hneg : i < 0
  · rw [pyStr, if_pos hneg]
    have hpos : 0 < i.natAbs := by omega
    have hdata : ("-" ++ pyStrNat i.natAbs).data = '-' :: (pyStrNat i.natAbs).data := by
      simp [String.data_append]
    rw [pyInt?, hdata]
    have hsdata : (pyStrNat i.natAbs).data = (natDigitsRev i.natAbs).reverse := by
      rw [pyStrNat, if_neg (Nat.pos_iff_ne_zero.mp hpos)]
    rw [hsdata]
    have hne : (natDigitsRev i.natAbs).reverse ≠ [] := by
      intro hcon
      exact natDigitsRev_ne_nil _ hpos (List.reverse_eq_nil_iff.mp hcon)
    rw [pyIntChars?, if_pos rfl, if_neg hne, parseNat_digits]
    show some (-(i.natAbs : Int)) = some i
    congr 1
    omega
  · rw [pyStr, if_neg hneg, pyInt?_pyStrNat]
    congr 1
    omega

/-! ## Helper lemmas about verify_token and the handlers -/

theorem verify_token_malformed (s : Settings) (now : Int) (raw : String) :
    verify_token s now (JWTToken.malformed raw) = none := rfl

theorem verify_token_wrong_alg (s : Settings) (now : Int) (p : JWTPayload)
    (sec alg : String) (h : alg ≠ s.ALGORITHM) :
    verify_token s now (JWTToken.signed p sec alg) = none := by
  rw [verify_token, jwt_decode, if_pos (by simpa using h)]

theorem verify_token_wrong_secret (s : Settings) (now : Int) (p : JWTPayload)
    (sec alg : String) (h : sec ≠ s.SECRET_KEY) :
    verify_token s now (JWTToken.signed p sec alg) = none := by
  by_cases halg : ¬ [s.ALGORITHM].contains alg
  · rw [verify_token, jwt_decode, if_pos halg]
  · rw [verify_token, jwt_decode, if_neg halg, if_pos h]

theorem verify_token_expired (s : Settings) (now : Int) (p : JWTPayload)
    (sec alg : String) (h : p.exp < now) :
    verify_token s now (JWTToken.signed p sec alg) = none := by
  by_cases halg : ¬ [s.ALGORITHM].contains alg
  · rw [verify_token, jwt_decode, if_pos halg]
  · by_cases hsec : sec ≠ s.SECRET_KEY
    · rw [verify_token, jwt_decode, if_neg halg, if_pos hsec]
    · rw [verify_token, jwt_decode, if_neg halg, if_neg hsec, if_pos h]

theorem verify_token_live (s : Settings) (now : Int) (p : JWTPayload)
    (h : now ≤ p.exp) :
    verify_token s now (JWTToken.signed p s.SECRET_KEY s.ALGORITHM)
      = match p.sub with
        | none => none
        | some str => pyInt? str := by
  rw [verify_token, jwt_decode, if_neg (by simp), if_neg (by simp), if_neg (by omega)]

theorem resolve_and_validate_ok (s : Settings) (now : Int) (path_user_id uid : Int)
    (token : JWTToken)
    (h : resolve_and_validate s now path_user_id token = Except.ok uid) :
    uid = path_user_id := by
  rw [resolve_and_validate] at h
  cases hg : get_user_id_from_token s now token with
  | error e => rw [hg] at h; exact absurd h (by simp)
  | ok tuid =>
    rw [hg] at h
    simp only [validate_user_id_match] at h
    by_cases hne : path_user_id ≠ tuid
    · rw [if_pos hne] at h; exact absurd h (by simp)
    · rw [if_neg hne] at h
      have := Except.ok.inj h
      omega

theorem find?_append_singleton {α : Type} (l : List α) (p : α → Bool) (x : α)
    (hl : l.find? p = none) (hx : p x = true) : (l ++ [x]).find? p = some x := by
  induction l with
  | nil => simp [List.find?, hx]
  | cons a as ih =>
    rw [List.find?_cons] at hl
    cases hpa : p a with
    | true => rw [hpa] at hl; exact absurd hl (by simp)
    | false =>
      rw [hpa] at hl
      rw [List.cons_append, List.find?_cons, hpa]
      exact ih hl

/-! ## Claims -/

/-- C1: validate_user_id_match signals 403 Forbidden whenever the path user
id and the token user id differ and returns the path user id unchanged when
they are equal; consequently a request carrying a valid token for user A
against path /B/tasks with A ≠ B is answered with the 403 error and
list_tasks returns none of B's task rows. -/
theorem C1_identity_enforcement :
    (∀ p t : Int, p ≠ t →
      validate_user_id_match p t =
        Except.error { status_code := 403, detail := "User ID does not match authenticated user" })
    ∧ (∀ p : Int, validate_user_id_match p p = Except.ok p)
    ∧ (∀ (s : Settings) (now : Int) (db : List TaskRow) (a b : Int) (token : JWTToken),
        verify_token s now token = some a → a ≠ b →
        list_tasks s now db b token =
          Except.error { status_code := 403, detail := "User ID does not match authenticated user" }) := by
  refine ⟨fun p t hne => ?_, fun p => ?_, fun s now db a b token hv hne => ?_⟩
  · rw [validate_user_id_match.eq_def, if_pos hne]
  · rw [validate_user_id_match.eq_def, if_neg (fun h => h rfl)]
  · simp only [list_tasks, resolve_and_validate, get_user_id_from_token, hv]
    rw [validate_user_id_match.eq_def, if_pos (Ne.symm hne)]

/-- Witness for C1 at concrete inputs: path 2 against token user 1 is
rejected with 403, path 5 against token user 5 passes unchanged, and the
task list of user 2 is not returned to the holder of a valid token for
user 1. -/
theorem C1_identity_enforcement_witness :
    validate_user_id_match 2 1 =
      Except.error { status_code := 403, detail := "User ID does not match authenticated user" }
    ∧ validate_user_id_match 5 5 = Except.ok 5
    ∧ list_tasks sampleSettings 0
        [{ id := 1, title := "b task", description := none, completed := false,
           user_id := 2, created_at := 0, updated_at := 0 }] 2
        (JWTToken.signed { sub := some "1", exp := 100 } "k" "HS256")
      = Except.error { status_code := 403, detail := "User ID does not match authenticated user" } :=
  ⟨C1_identity_enforcement.1 2 1 (by decide),
   C1_identity_enforcement.2.1 5,
   C1_identity_enforcement.2.2 sampleSettings 0 _ 1 2 _ rfl (by decide)⟩

/-- C4: verify_token is total — the model returns a value of Option Int in
every case rather than raising — and returns none for each enumerated error
case: malformed token, wrong signing secret, algorithm mismatch, expired
token, missing sub claim, and sub claim not parseable as an integer;
on success it returns the parsed integer user id. -/
theorem C4_verify_token_error_cases (s : Settings) (now : Int) :
    (∀ raw, verify_token s now (JWTToken.malformed raw) = none)
    ∧ (∀ p sec alg, sec ≠ s.SECRET_KEY →
        verify_token s now (JWTToken.signed p sec alg) = none)
    ∧ (∀ p sec alg, alg ≠ s.ALGORITHM →
        verify_token s now (JWTToken.signed p sec alg) = none)
    ∧ (∀ p sec alg, p.exp < now →
        verify_token s now (JWTToken.signed p sec alg) = none)
    ∧ (∀ e sec alg,
        verify_token s now (JWTToken.signed { sub := none, exp := e } sec alg) = none)
    ∧ (∀ e str, pyInt? str = none →
        verify_token s now
          (JWTToken.signed { sub := some str, exp := e } s.SECRET_KEY s.ALGORITHM) = none)
    ∧ (∀ e str n, pyInt? str = some n → now ≤ e →
        verify_token s now
          (JWTToken.signed { sub := some str, exp := e } s.SECRET_KEY s.ALGORITHM) = some n) := by
  refine ⟨fun raw => rfl,
    fun p sec alg h => verify_token_wrong_secret s now p sec alg h,
    fun p sec alg h => verify_token_wrong_alg s now p sec alg h,
    fun p sec alg h => verify_token_expired s now p sec alg h,
    fun e sec alg => ?_, fun e str h => ?_, fun e str n h hle => ?_⟩
  · by_cases halg : alg = s.ALGORITHM
    · subst halg
      by_cases hsec : sec = s.SECRET_KEY
      · subst hsec
        by_cases hexp : e < now
        · exact verify_token_expired s now _ _ _ hexp
        · rw [verify_token_live s now _ (by change now ≤ e; omega)]
      · exact verify_token_wrong_secret s now _ _ _ hsec
    · exact verify_token_wrong_alg s now _ _ _ halg
  · by_cases hexp : e < now
    · exact verify_token_expired s now _ _ _ hexp
    · rw [verify_token_live s now _ (by change now ≤ e; omega)]
      exact h
  · rw [verify_token_live s now _ (by simpa using hle)]
    exact h

/-- Witness for C4: all seven cases evaluated at concrete tokens against the
concrete configuration (secret "k", algorithm HS256), at time 0 (time 500
for the expired case via exp 100 < 500 at now-parameter 500 is covered by
instantiating now := 500 in a separate application). -/
theorem C4_verify_token_error_cases_witness :
    verify_token sampleSettings 0 (JWTToken.malformed "zz") = none
    ∧ verify_token sampleSettings 0
        (JWTToken.signed { sub := some "1", exp := 100 } "other" "HS256") = none
    ∧ verify_token sampleSettings 0
        (JWTToken.signed { sub := some "1", exp := 100 } "k" "HS999") = none
    ∧ verify_token sampleSettings 500
        (JWTToken.signed { sub := some "1", exp := 100 } "k" "HS256") = none
    ∧ verify_token sampleSettings 0
        (JWTToken.signed { sub := none, exp := 100 } "k" "HS256") = none
    ∧ verify_token sampleSettings 0
        (JWTToken.signed { sub := some "abc", exp := 100 } "k" "HS256") = none
    ∧ verify_token sampleSettings 0
        (JWTToken.signed { sub := some "42", exp := 100 } "k" "HS256") = some 42 :=
  ⟨(C4_verify_token_error_cases sampleSettings 0).1 "zz",
   (C4_verify_token_error_cases sampleSettings 0).2.1 _ "other" "HS256" (by decide),
   (C4_verify_token_error_cases sampleSettings 0).2.2.1 _ "k" "HS999" (by decide),
   (C4_verify_token_error_cases sampleSettings 500).2.2.2.1 _ "k" "HS256" (by norm_num),
   (C4_verify_token_error_cases sampleSettings 0).2.2.2.2.1 100 "k" "HS256",
   (C4_verify_token_error_cases sampleSettings 0).2.2.2.2.2.1 100 "abc" rfl,
   (C4_verify_token_error_cases sampleSettings 0).2.2.2.2.2.2 100 "42" 42 rfl (by norm_num)⟩

/-- C3 counterexample: a token signed with the configured secret and the
configured algorithm, with the current time 0 before its expiry 100, on
which verify_token nevertheless returns invalid because its sub claim is
absent. The claimed equivalence "accepted iff signature verifies, algorithm
matches and time before expiry" is therefore false at this input: the three
right-hand conditions hold and acceptance fails. -/
theorem C3_counterexample :
    verify_token sampleSettings 0
      (JWTToken.signed { sub := none, exp := 100 }
        sampleSettings.SECRET_KEY sampleSettings.ALGORITHM) = none
    ∧ sampleSettings.SECRET_KEY = sampleSettings.SECRET_KEY
    ∧ sampleSettings.ALGORITHM = sampleSettings.ALGORITHM
    ∧ (0 : Int) < 100 := ⟨rfl, rfl, rfl, by norm_num⟩

/-- C3 amended: verify_token accepts a token (returns a user id) iff the
signing secret matches the server secret, the algorithm matches the
configured one, the current time is at most the expiry (jose expires a
token only strictly after exp), and additionally the sub claim is present
and parses as an integer; in particular every token signed with a different
secret or a different algorithm is rejected. -/
theorem C3_token_validity (s : Settings) (now : Int) (token : JWTToken) :
    ((verify_token s now token).isSome = token_accepted_spec s now token)
    ∧ (∀ p sec alg, sec ≠ s.SECRET_KEY ∨ alg ≠ s.ALGORITHM →
        verify_token s now (JWTToken.signed p sec alg) = none) := by
  constructor
  · cases token with
    | malformed raw => rfl
    | signed p sec alg =>
      by_cases halg : alg = s.ALGORITHM
      · subst halg
        by_cases hsec : sec = s.SECRET_KEY
        · subst hsec
          by_cases hexp : p.exp < now
          · rw [verify_token_expired s now p _ _ hexp]
            have hd : decide (now ≤ p.exp) = false := by simp; omega
            simp [token_accepted_spec, hd]
          · have hle : now ≤ p.exp := by omega
            rw [verify_token_live s now p hle]
            have hd : decide (now ≤ p.exp) = true := by simpa using hle
            cases hsub : p.sub with
            | none => simp [token_accepted_spec, hsub]
            | some str => simp [token_accepted_spec, hsub, hd]
        · rw [verify_token_wrong_secret s now p _ _ hsec]
          simp [token_accepted_spec, hsec]
      · rw [verify_token_wrong_alg s now p _ _ halg]
        simp [token_accepted_spec, halg]
  · intro p sec alg h
    cases h with
    | inl h => exact verify_token_wrong_secret s now p sec alg h
    | inr h => exact verify_token_wrong_alg s now p sec alg h

/-- Witness for C3 at concrete inputs: the equivalence evaluated on a live
well-signed token with an integer sub (both sides true), and rejection of a
token signed with the wrong secret. -/
theorem C3_token_validity_witness :
    (verify_token sampleSettings 0
        (JWTToken.signed { sub := some "1", exp := 100 } "k" "HS256")).isSome
      = token_accepted_spec sampleSettings 0
          (JWTToken.signed { sub := some "1", exp := 100 } "k" "HS256")
    ∧ verify_token sampleSettings 0
        (JWTToken.signed { sub := some "1", exp := 100 } "wrong" "HS256") = none :=
  ⟨(C3_token_validity sampleSettings 0
      (JWTToken.signed { sub := some "1", exp := 100 } "k" "HS256")).1,
   (C3_token_validity sampleSettings 0
      (JWTToken.signed { sub := some "1", exp := 100 } "k" "HS256")).2
      { sub := some "1", exp := 100 } "wrong" "HS256" (Or.inl (by decide))⟩

/-- C2 counterexample: a token issued at time 100 for user 1 with ttl 60
seconds is still verified successfully at time 160 = 100 + 60, the expiry
instant, where the claim requires verification to return invalid ("at or
after expiry"): jose's expiry comparison is strict (exp < now), so the
boundary instant is accepted. -/
theorem C2_counterexample :
    verify_token sampleSettings 160
      (create_access_token sampleSettings 100 (some (pyStr 1)) (some 60)) = some 1
    ∧ some (1 : Int) ≠ none := by
  constructor
  · have henc : create_access_token sampleSettings 100 (some (pyStr 1)) (some 60)
        = JWTToken.signed { sub := some (pyStr 1), exp := 160 }
            sampleSettings.SECRET_KEY sampleSettings.ALGORITHM := rfl
    rw [henc, verify_token_live sampleSettings 160 _ (by norm_num)]
    exact pyInt?_pyStr 1
  · simp

/-- C2 amended: a token issued for user_id with a nonzero ttl at time now
(payload sub = str(user_id), exp = now + ttl) verifies to user_id at every
time t up to and including the expiry instant now + ttl, and verifies as
invalid at every time strictly after now + ttl; a ttl of exactly zero is a
falsy timedelta, so the source's `if expires_delta:` falls through to the
configured default and the token expires at now plus
ACCESS_TOKEN_EXPIRE_MINUTES minutes instead. (The claim's "invalid at or
after expiry" holds only strictly after: jose's expiry check is strict, so
the boundary instant is still accepted.) -/
theorem C2_issue_verify_roundtrip (s : Settings) (user_id ttl now t : Int) :
    (ttl ≠ 0 → t ≤ now + ttl →
      verify_token s t (create_access_token s now (some (pyStr user_id)) (some ttl))
        = some user_id)
    ∧ (ttl ≠ 0 → now + ttl < t →
      verify_token s t (create_access_token s now (some (pyStr user_id)) (some ttl))
        = none)
    ∧ (t ≤ now + s.ACCESS_TOKEN_EXPIRE_MINUTES * 60 →
      verify_token s t (create_access_token s now (some (pyStr user_id)) (some 0))
        = some user_id)
    ∧ (now + s.ACCESS_TOKEN_EXPIRE_MINUTES * 60 < t →
      verify_token s t (create_access_token s now (some (pyStr user_id)) (some 0))
        = none) := by
  have henc0 : create_access_token s now (some (pyStr user_id)) (some 0)
      = JWTToken.signed
          { sub := some (pyStr user_id), exp := now + s.ACCESS_TOKEN_EXPIRE_MINUTES * 60 }
          s.SECRET_KEY s.ALGORITHM := rfl
  refine ⟨fun httl hle => ?_, fun httl hlt => ?_, fun hle => ?_, fun hlt => ?_⟩
  · have henc : create_access_token s now (some (pyStr user_id)) (some ttl)
        = JWTToken.signed { sub := some (pyStr user_id), exp := now + ttl }
            s.SECRET_KEY s.ALGORITHM := by
      simp [create_access_token, jwt_encode, httl]
    rw [henc, verify_token_live s t _ (by simpa using hle)]
    exact pyInt?_pyStr user_id
  · have henc : create_access_token s now (some (pyStr user_id)) (some ttl)
        = JWTToken.signed { sub := some (pyStr user_id), exp := now + ttl }
            s.SECRET_KEY s.ALGORITHM := by
      simp [create_access_token, jwt_encode, httl]
    rw [henc]
    exact verify_token_expired s t _ _ _ (by simpa using hlt)
  · rw [henc0, verify_token_live s t _ (by simpa using hle)]
    exact pyInt?_pyStr user_id
  · rw [henc0]
    exact verify_token_expired s t _ _ _ (by simpa using hlt)

/-- Witness for C2 at concrete inputs: a token for user 7 with ttl 60
issued at time 100 verifies to 7 at time 130 < 160 and is invalid at time
161 > 160; a token for user 7 with ttl 0 issued at time 100 gets the
default 30-minute expiry 1900 = 100 + 30 * 60, verifying to 7 at time 1900
and invalid at time 2000. -/
theorem C2_issue_verify_roundtrip_witness :
    verify_token sampleSettings 130
      (create_access_token sampleSettings 100 (some (pyStr 7)) (some 60)) = some 7
    ∧ verify_token sampleSettings 161
      (create_access_token sampleSettings 100 (some (pyStr 7)) (some 60)) = none
    ∧ verify_token sampleSettings 1900
      (create_access_token sampleSettings 100 (some (pyStr 7)) (some 0)) = some 7
    ∧ verify_token sampleSettings 2000
      (create_access_token sampleSettings 100 (some (pyStr 7)) (some 0)) = none :=
  ⟨(C2_issue_verify_roundtrip sampleSettings 7 60 100 130).1 (by norm_num) (by norm_num),
   (C2_issue_verify_roundtrip sampleSettings 7 60 100 161).2.1 (by norm_num) (by norm_num),
   (C2_issue_verify_roundtrip sampleSettings 7 0 100 1900).2.2.1 (by norm_num [sampleSettings]),
   (C2_issue_verify_roundtrip sampleSettings 7 0 100 2000).2.2.2 (by norm_num [sampleSettings])⟩

/-- C5 counterexample: on a digest string the hashing scheme cannot
identify, verify_password propagates passlib's UnknownHashError to the
caller instead of returning false; the claim "returns false — never raising
an exception to the caller — on a malformed digest" is false at this
input. -/
theorem C5_counterexample :
    verify_password "secret123" (PasswordDigest.malformed "not-a-digest")
      = Except.error "hash could not be identified" := rfl

/-- C5 amended: for a digest produced by the salted scheme, verify_password
returns true exactly when the digest was produced from the given plaintext
and returns false on a mismatch, raising nothing; on a malformed digest it
raises passlib's UnknownHashError to the caller (the login route catches
it) rather than returning false. -/
theorem C5_verify_password (plain salt password : String) :
    (verify_password plain (get_password_hash salt password) = Except.ok true ↔ plain = password)
    ∧ (plain ≠ password →
        verify_password plain (get_password_hash salt password) = Except.ok false)
    ∧ (∀ raw, verify_password plain (PasswordDigest.malformed raw)
        = Except.error "hash could not be identified") := by
  have base : verify_password plain (get_password_hash salt password)
      = Except.ok (plain == password) := rfl
  refine ⟨?_, fun hne => ?_, fun raw => rfl⟩
  · rw [base]
    constructor
    · intro h
      have hb : (plain == password) = true := Except.ok.inj h
      exact eq_of_beq hb
    · intro h
      subst h
      simp
  · rw [base, beq_eq_false_iff_ne.mpr hne]

/-- Witness for C5 at concrete inputs: hashing "secret123" with salt "s1"
verifies against "secret123" and fails against "wrong". -/
theorem C5_verify_password_witness :
    verify_password "secret123" (get_password_hash "s1" "secret123") = Except.ok true
    ∧ verify_password "wrong" (get_password_hash "s1" "secret123") = Except.ok false :=
  ⟨(C5_verify_password "secret123" "s1" "secret123").1.mpr rfl,
   (C5_verify_password "wrong" "s1" "secret123").2.1 (by decide)⟩

/-- C6: at the failing input — a task owned by user 1 with created_at =
updated_at = 100 — a PATCH of {completed := true} by its owner at time 500
returns the task with title and description unchanged and completed set,
but with updated_at still 100, equal to created_at rather than strictly
later: the handler assigns only the provided fields and never assigns
updated_at (the update_timestamp helper in backend/utils.py exists for
exactly this purpose and is never called). -/
theorem C6_patch_leaves_updated_at :
    patch_task sampleSettings 500
      [{ id := 1, title := "buy milk", description := some "2 liters", completed := false,
         user_id := 1, created_at := 100, updated_at := 100 }]
      1 { title := none, description := none, completed := some true } 1
      (JWTToken.signed { sub := some "1", exp := 1000 } "k" "HS256")
    = Except.ok
        ({ title := "buy milk", description := some "2 liters", completed := true,
           user_id := 1, id := 1, created_at := 100, updated_at := 100 },
         [{ id := 1, title := "buy milk", description := some "2 liters", completed := true,
            user_id := 1, created_at := 100, updated_at := 100 }])
    ∧ ¬ (100 : Int) > 100 := ⟨rfl, by norm_num⟩

/-- C7: the failure response of login when no user row matches the
submitted email is identical — same status code 401 and same message — to
the failure response when the user exists but password verification returns
false. -/
theorem C7_enumeration_resistance (s : Settings) (now : Int)
    (db1 db2 : List UserRow) (email1 pw1 email2 pw2 : String) (user : UserRow)
    (h1 : db1.find? (fun u => u.email == email1) = none)
    (h2 : db2.find? (fun u => u.email == email2) = some user)
    (h3 : verify_password pw2 user.hashed_password = Except.ok false) :
    login_user s now db1 email1 pw1
      = Except.error { status_code := 401, detail := "Incorrect email or password" }
    ∧ login_user s now db2 email2 pw2
      = Except.error { status_code := 401, detail := "Incorrect email or password" }
    ∧ login_user s now db1 email1 pw1 = login_user s now db2 email2 pw2 := by
  have e1 : login_user s now db1 email1 pw1
      = Except.error { status_code := 401, detail := "Incorrect email or password" } := by
    simp [login_user, h1]
  have e2 : login_user s now db2 email2 pw2
      = Except.error { status_code := 401, detail := "Incorrect email or password" } := by
    simp [login_user, h2, h3]
  exact ⟨e1, e2, by rw [e1, e2]⟩

/-- Witness for C7 at concrete inputs: login against an empty user table
and login with a wrong password against an existing active user produce the
same 401 response. -/
theorem C7_enumeration_resistance_witness :
    login_user sampleSettings 0 [] "alice@example.com" "x"
      = Except.error { status_code := 401, detail := "Incorrect email or password" }
    ∧ login_user sampleSettings 0
        [{ id := 1, email := "bob@example.com", created_at := 0,
           hashed_password := PasswordDigest.pbkdf2_sha256 "s1" "right", is_active := true }]
        "bob@example.com" "wrong"
      = Except.error { status_code := 401, detail := "Incorrect email or password" }
    ∧ login_user sampleSettings 0 [] "alice@example.com" "x"
      = login_user sampleSettings 0
          [{ id := 1, email := "bob@example.com", created_at := 0,
             hashed_password := PasswordDigest.pbkdf2_sha256 "s1" "right", is_active := true }]
          "bob@example.com" "wrong" :=
  C7_enumeration_resistance sampleSettings 0 [] _ "alice@example.com" "x"
    "bob@example.com" "wrong"
    { id := 1, email := "bob@example.com", created_at := 0,
      hashed_password := PasswordDigest.pbkdf2_sha256 "s1" "right", is_active := true }
    rfl rfl rfl

/-- C8: registering a fresh email succeeds and appends exactly one user row
(with the database-assigned id, the given email, active); an attempt whose
email already has a row — in particular the second of two successive
registrations of the same email — signals 409 Conflict and leaves the table
unchanged; and a hashing failure signals 400 Invalid password format and
leaves the table unchanged. -/
theorem C8_register (hashf : String → Except String PasswordDigest)
    (db : List UserRow) (next_id now : Int) (email password : String) :
    (∀ digest, db.find? (fun u => u.email == email) = none →
      hashf password = Except.ok digest →
      register_user hashf db next_id now email password
        = (Except.ok { id := next_id, email := email, created_at := now, is_active := true },
           db ++ [{ id := next_id, email := email, created_at := now,
                    hashed_password := digest, is_active := true }]))
    ∧ ((db.find? (fun u => u.email == email)).isSome →
      register_user hashf db next_id now email password
        = (Except.error { status_code := 409, detail := "User with this email already exists" },
           db))
    ∧ (∀ err, db.find? (fun u => u.email == email) = none →
        hashf password = Except.error err →
      register_user hashf db next_id now email password
        = (Except.error { status_code := 400, detail := "Invalid password format" }, db))
    ∧ (∀ digest next_id2 now2 password2,
        db.find? (fun u => u.email == email) = none →
        hashf password = Except.ok digest →
        register_user hashf (register_user hashf db next_id now email password).2
            next_id2 now2 email password2
          = (Except.error { status_code := 409, detail := "User with this email already exists" },
             (register_user hashf db next_id now email password).2)) := by
  refine ⟨fun digest hf hh => ?_, fun hs => ?_, fun err hf hh => ?_,
    fun digest next_id2 now2 password2 hf hh => ?_⟩
  · simp [register_user, hf, hh]
  · obtain ⟨u, hu⟩ := Option.isSome_iff_exists.mp hs
    simp [register_user, hu]
  · simp [register_user, hf, hh]
  · have hreg : (register_user hashf db next_id now email password).2
        = db ++ [{ id := next_id, email := email, created_at := now,
                   hashed_password := digest, is_active := true }] := by
      simp [register_user, hf, hh]
    rw [hreg]
    have hfind : (db ++ [({ id := next_id, email := email, created_at := now,
                            hashed_password := digest, is_active := true } : UserRow)]).find?
          (fun u => u.email == email)
        = some { id := next_id, email := email, created_at := now,
                 hashed_password := digest, is_active := true } :=
      find?_append_singleton db _ _ hf (by simp)
    simp [register_user, hfind]

/-- Witness for C8 at concrete inputs: registering alice against an empty
table succeeds with one row; registering her again yields 409 with the
table unchanged; a registration whose hashing step fails yields 400 with
the table unchanged; and the 409 branch applied directly to a table that
already holds the email. -/
theorem C8_register_witness :
    register_user (fun pw => Except.ok (pwd_context_hash "s1" pw)) [] 1 0
        "alice@example.com" "secret123"
      = (Except.ok { id := 1, email := "alice@example.com", created_at := 0, is_active := true },
         [{ id := 1, email := "alice@example.com", created_at := 0,
            hashed_password := pwd_context_hash "s1" "secret123", is_active := true }])
    ∧ register_user (fun pw => Except.ok (pwd_context_hash "s1" pw))
        [{ id := 1, email := "alice@example.com", created_at := 0,
           hashed_password := pwd_context_hash "s1" "secret123", is_active := true }]
        2 5 "alice@example.com" "secret123"
      = (Except.error { status_code := 409, detail := "User with this email already exists" },
         [{ id := 1, email := "alice@example.com", created_at := 0,
            hashed_password := pwd_context_hash "s1" "secret123", is_active := true }])
    ∧ register_user (fun _ => Except.error "bcrypt failure") [] 1 0 "a@b.c" "p"
      = (Except.error { status_code := 400, detail := "Invalid password format" }, [])
    ∧ register_user (fun pw => Except.ok (pwd_context_hash "s1" pw))
        (register_user (fun pw => Except.ok (pwd_context_hash "s1" pw)) [] 1 0
          "alice@example.com" "secret123").2
        2 5 "alice@example.com" "other"
      = (Except.error { status_code := 409, detail := "User with this email already exists" },
         (register_user (fun pw => Except.ok (pwd_context_hash "s1" pw)) [] 1 0
           "alice@example.com" "secret123").2) :=
  ⟨(C8_register _ [] 1 0 "alice@example.com" "secret123").1 _ rfl rfl,
   (C8_register _ _ 2 5 "alice@example.com" "secret123").2.1 rfl,
   (C8_register _ [] 1 0 "a@b.c" "p").2.2.1 "bcrypt failure" rfl rfl,
   (C8_register _ [] 1 0 "alice@example.com" "secret123").2.2.2 _ 2 5 "other" rfl rfl⟩

/-- C9: at the failing input — an environment that defines neither
SECRET_KEY nor AUTH_SECRET (nor anything else) — Settings construction
succeeds rather than failing startup, and the signing secret is silently
the hard-coded default baked into backend/config.py; the claim requires
configuration construction not to succeed in this situation. -/
theorem C9_default_secret_fallback :
    settingsOfEnv { vars := [] }
      = Except.ok { DATABASE_URL := "sqlite+aiosqlite:///./todo_app.db",
                    SECRET_KEY := defaultSecretKey, ALGORITHM := "HS256",
                    ACCESS_TOKEN_EXPIRE_MINUTES := 30 }
    ∧ defaultSecretKey = "KPUqFcCE/cmK7jg73LieWXczeHwnHlb4Hde1EcVrbCo=" := ⟨rfl, rfl⟩

/-- C10: whenever the create-task endpoint succeeds (identity enforcement
passed), the returned task's user_id equals the path user id and the stored
row is exactly the body's fields with user_id set to the path user id —
for every request body: the TaskCreate schema carries no user_id field, so
no body can set or spoof the owner. -/
theorem C10_create_task_owner (s : Settings) (now : Int) (db : List TaskRow)
    (next_id : Int) (tc : TaskCreate) (path_user_id : Int) (token : JWTToken)
    (tr : TaskRead) (db2 : List TaskRow)
    (h : create_task s now db next_id tc path_user_id token = Except.ok (tr, db2)) :
    tr.user_id = path_user_id
    ∧ db2 = db ++ [{ id := next_id, title := tc.title, description := tc.description,
                     completed := tc.completed, user_id := path_user_id,
                     created_at := now, updated_at := now }] := by
  cases hr : resolve_and_validate s now path_user_id token with
  | error e =>
    simp only [create_task, hr] at h
    exact absurd h (by simp)
  | ok uid =>
    have huid : uid = path_user_id := resolve_and_validate_ok s now path_user_id uid token hr
    simp only [create_task, hr] at h
    rw [Except.ok.injEq, Prod.mk.injEq] at h
    obtain ⟨h1, h2⟩ := h
    subst huid
    constructor
    · rw [← h1]; rfl
    · exact h2.symm

/-- Witness for C10 at a concrete successful request: user 1 creates
"buy milk" with a valid token for user 1 against an empty table. -/
theorem C10_create_task_owner_witness :
    ({ title := "buy milk", description := none, completed := false, user_id := 1,
       id := 1, created_at := 0, updated_at := 0 } : TaskRead).user_id = 1
    ∧ [({ id := 1, title := "buy milk", description := none, completed := false,
          user_id := 1, created_at := 0, updated_at := 0 } : TaskRow)]
      = [] ++ [{ id := 1, title := "buy milk", description := none, completed := false,
                 user_id := 1, created_at := 0, updated_at := 0 }] :=
  C10_create_task_owner sampleSettings 0 [] 1
    { title := "buy milk", description := none, completed := false } 1
    (JWTToken.signed { sub := some "1", exp := 100 } "k" "HS256")
    { title := "buy milk", description := none, completed := false, user_id := 1,
      id := 1, created_at := 0, updated_at := 0 }
    [{ id := 1, title := "buy milk", description := none, completed := false,
       user_id := 1, created_at := 0, updated_at := 0 }]
    rfl

end TodoBackend
